import Mathlib

/-!
# Verification of the stock-scanner pipeline

A shallow embedding of `stock_scanner.py`: the quota gate, the bounded API
caller, the candidate scanner, the enricher and the notifier, with theorems
settling the specification's claims about them.

Python floats are modelled as exact rationals (`Rat`), Python's `round` as
round-half-even on rationals, JSON field values as an explicit sum of
numeric and non-numeric payloads, and exceptions as `Except`/`Option`
results.  External effects (HTTP, sleeping, printing) are modelled by
passing the environment's responses in as explicit arguments.
-/

/-- A JSON field value as the Python code sees it: either a number, or some
non-numeric value of which only the Python truthiness is relevant (comparing
it to a number raises `TypeError`, which the code catches and turns into a
skip). -/
inductive JValue where
  | num (q : Rat)
  | other (truthy : Bool)
  deriving DecidableEq, Repr

/-- Python truthiness of a field value: a number is truthy iff nonzero. -/
def JValue.isTruthy : JValue → Bool
  | .num q => q != 0
  | .other b => b

/-- A quote record from provider A's exchange snapshot.  `none` models a
missing field; `quote.get(key, 0)` turns it into the number `0`. -/
structure Quote where
  symbol : String
  price : Option JValue
  yearLow : Option JValue
  deriving DecidableEq, Repr

/-- Models `quote.get(field, 0)`: a missing field defaults to the number `0`. -/
def Quote.getField (v : Option JValue) : JValue :=
  v.getD (JValue.num 0)

/-- A quote that passed the near-year-low filter, as stored by
`get_initial_stocks`: symbol, numeric price and numeric year low. -/
structure Candidate where
  symbol : String
  price : Rat
  yearLow : Rat
  deriving DecidableEq, Repr

/-- One iteration of the loop body of `get_initial_stocks` (lines 59-73):

    current_price = quote.get('price', 0)
    year_low = quote.get('yearLow', 0)
    if current_price and year_low and current_price <= (year_low * 1.02):
        stocks_info.append(...)

A `TypeError`/`ValueError` from comparing a truthy non-numeric value is
caught by the inner `except` and the quote is skipped (`none`). -/
def quoteCandidate (q : Quote) : Option Candidate :=
  let current_price := Quote.getField q.price
  let year_low := Quote.getField q.yearLow
  if current_price.isTruthy && year_low.isTruthy then
    match current_price, year_low with
    | .num p, .num l =>
        if p ≤ l * (51 / 50 : Rat) then some ⟨q.symbol, p, l⟩ else none
    | _, _ => none
  else none

/-- The candidate scanner `get_initial_stocks` (lines 53-79), given the parsed snapshot: collect
the quotes that pass the filter, in order. -/
def get_initial_stocks (quotes : List Quote) : List Candidate :=
  quotes.filterMap quoteCandidate

/-- The quota endpoint's observable outcome: a transport/parse failure
(the `except` branch), or a parsed body whose `remainingCalls` field is
absent, or present with some value. -/
inductive QuotaResponse where
  | fail (msg : String)
  | ok (remainingCalls : Option JValue)
  deriving DecidableEq, Repr

/-- The quota gate `check_api_quota` (lines 17-31): `True` only when the body carries a
numeric `remainingCalls` greater than 5.  A transport or parse failure, a
missing field, or a non-numeric field (whose comparison to `5` raises and
is caught) all yield `False`; the function is total, so it never raises to
its caller. -/
def check_api_quota : QuotaResponse → Bool
  | .fail _ => false
  | .ok none => false
  | .ok (some (.num r)) => r > 5
  | .ok (some (.other _)) => false

/-- The ceiling `self.max_daily_calls = 250` (line 15). -/
def max_daily_calls : Nat := 250

/-- What the network does on one attempt of `_make_api_call`: either the
request round-trips and parses (`success`), or a
`requests.exceptions.RequestException` is raised — timeout, connection
error, or `raise_for_status` on a non-2xx response (`transportError`,
carrying `str(e)`). -/
inductive Attempt (α : Type) where
  | success (v : α)
  | transportError (msg : String)

/-- The exceptions `_make_api_call` can raise, by source line. -/
inductive ApiError where
  | dailyLimit
  | retriesExhausted (retries : Nat) (msg : String)
  | unknown
  deriving DecidableEq, Repr

/-- The `str()` of each exception raised by `_make_api_call`
(lines 38, 48, 51). -/
def ApiError.message : ApiError → String
  | .dailyLimit => "Daily API call limit reached"
  | .retriesExhausted n m =>
      "API call failed after " ++ toString n ++ " retries: " ++ m
  | .unknown => "API call failed with unknown error"

/-- The run-scoped mutable state touched by `_make_api_call`:
`self.api_calls`, plus a ghost count of network requests actually issued
(each `requests.get` reaching the wire). -/
structure CallState where
  api_calls : Nat
  requests : Nat
  deriving DecidableEq, Repr

/-- The loop body of `_make_api_call` (lines 34-49), from iteration `i`:

    self.api_calls += 1
    if self.api_calls > self.max_daily_calls:
        raise Exception("Daily API call limit reached")   # not caught below
    response = requests.get(url, timeout=10)
    response.raise_for_status()
    return response.json()
  except requests.exceptions.RequestException as e:
    if i == retries - 1:
        raise Exception(f"API call failed after ... retries: ...")
    # else back off and loop

`env i` is the network's outcome for attempt `i`; it is consulted (and the
request counted) only after the counter check passes.  The daily-limit
exception is not a `RequestException`, so it escapes the `except` clause
immediately. -/
def makeApiCallAux {α : Type} (env : Nat → Attempt α) (retries : Nat) :
    Nat → CallState → Except ApiError α × CallState
  | i, st =>
    if _h : i < retries then
      let st1 : CallState := { st with api_calls := st.api_calls + 1 }
      if st1.api_calls > max_daily_calls then
        (Except.error .dailyLimit, st1)
      else
        let st2 : CallState := { st1 with requests := st1.requests + 1 }
        match env i with
        | .success v => (Except.ok v, st2)
        | .transportError m =>
            if i = retries - 1 then
              (Except.error (.retriesExhausted retries m), st2)
            else
              makeApiCallAux env retries (i + 1) st2
    else
      (Except.error .unknown, st)
  termination_by i _ => retries - i

/-- The bounded caller `_make_api_call(url, retries=3)` (lines 33-51): run the retry loop from
iteration 0.  The result pairs the returned value or raised exception with
the final call-counter state. -/
def _make_api_call {α : Type} (env : Nat → Attempt α) (st : CallState)
    (retries : Nat := 3) : Except ApiError α × CallState :=
  makeApiCallAux env retries 0 st

/-- Python's `round` to the nearest integer: round half to even
(banker's rounding), on exact rationals. -/
def pyRoundInt (x : Rat) : Int :=
  let f : Int := ⌊x⌋
  let r : Rat := x - f
  if r < 1 / 2 then f
  else if r > 1 / 2 then f + 1
  else if f % 2 = 0 then f else f + 1

/-- Python's `round(x, 2)` on exact rationals. -/
def pyRound2 (x : Rat) : Rat :=
  (pyRoundInt (x * 100) : Rat) / 100

/-- The company metadata provider B returns for one symbol
(`yf.Ticker(symbol).info`): each field may be absent, in which case the
code's `info.get(key, default)` supplies the default. -/
structure Info where
  marketCap : Option Rat
  longName : Option String
  industry : Option String
  sector : Option String
  volume : Option Rat
  longBusinessSummary : Option String
  deriving DecidableEq, Repr

/-- The record `enrich_stock_data` builds for a surviving candidate
(lines 100-111).  The numeric fields hold the exact values the code
computes before f-string rendering: `Distance from Low` is the rational
wrapped in `f"...%"`, `Market Cap` is kept as the raw cap feeding
`f"$\x7bmarket_cap/1e6:.1f\x7dM"`. -/
structure EnrichedRecord where
  Symbol : String
  CompanyName : String
  CurrentPrice : Rat
  YearLow52 : Rat
  DistanceFromLow : Rat
  MarketCap : Rat
  Industry : String
  Sector : String
  Volume : Rat
  Description : String
  deriving DecidableEq, Repr

/-- One iteration of `enrich_stock_data`'s loop (lines 87-118) for one
candidate.  `lookup` models `yf.Ticker(...).info`: `none` when the
metadata fetch raises (caught per symbol, line 116).  A zero `yearLow`
would make line 105 raise `ZeroDivisionError`, also caught per symbol;
every skip path yields `none`. -/
def enrichOne (lookup : String → Option Info) (stock : Candidate) :
    Option EnrichedRecord :=
  match lookup stock.symbol with
  | none => none
  | some info =>
    let market_cap := info.marketCap.getD 0
    if 10000000 ≤ market_cap ∧ market_cap ≤ 300000000 then
      if stock.yearLow = 0 then none
      else
        some
          { Symbol := stock.symbol
            CompanyName := info.longName.getD "N/A"
            CurrentPrice := pyRound2 stock.price
            YearLow52 := pyRound2 stock.yearLow
            DistanceFromLow :=
              pyRound2 ((stock.price / stock.yearLow - 1) * 100)
            MarketCap := market_cap
            Industry := info.industry.getD "N/A"
            Sector := info.sector.getD "N/A"
            Volume := info.volume.getD 0
            Description :=
              (info.longBusinessSummary.getD "N/A").take 200 ++ "..." }
    else none

/-- The enricher `enrich_stock_data(stocks)` (lines 81-121): process candidates in
order, keeping those that survive. -/
def enrich_stock_data (lookup : String → Option Info)
    (stocks : List Candidate) : List EnrichedRecord :=
  stocks.filterMap (enrichOne lookup)

/-- The constant `MAX_MESSAGE_LENGTH = 1600` (line 132). -/
def MAX_MESSAGE_LENGTH : Nat := 1600

/-- A record as `send_whatsapp` consumes it: the five fields its f-strings
interpolate, already rendered to text (the dict values are arbitrary at
this point; only their string forms reach the message). -/
structure MsgRecord where
  symbol : String
  companyName : String
  currentPrice : String
  distanceFromLow : String
  industry : String
  marketCap : String
  deriving DecidableEq, Repr

/-- The per-stock block appended by lines 136-141. -/
def stockBlock (stock : MsgRecord) : String :=
  "*" ++ stock.symbol ++ " - " ++ stock.companyName ++ "*\n" ++
  "💵 Price: $" ++ stock.currentPrice ++ "\n" ++
  "📊 From Low: " ++ stock.distanceFromLow ++ "\n" ++
  "🏢 Industry: " ++ stock.industry ++ "\n" ++
  "💰 Market Cap: " ++ stock.marketCap ++ "\n\n"

/-- The assembled `message_body` before the length check (lines 134-144):
header banner, one block per record, then the generation timestamp and the
API-call count. -/
def assembleBody (stocks_data : List MsgRecord) (timestamp : String)
    (api_calls : Nat) : String :=
  (stocks_data.foldl (fun acc stock => acc ++ stockBlock stock)
      "🚨 *Small Cap Stocks at 52-Week Lows* 🚨\n\n") ++
  "Generated: " ++ timestamp ++ "\n" ++
  "FMP API Calls Used: " ++ toString api_calls

/-- The fixed truncation notice appended on line 147. -/
def truncationSuffix : String := "\n\n(Message truncated due to length)"

/-- The length guard of lines 146-147: bodies longer than 1600 characters
are cut to `MAX_MESSAGE_LENGTH - 100` characters and the notice appended. -/
def truncateBody (message_body : String) : String :=
  if message_body.length > MAX_MESSAGE_LENGTH then
    message_body.take (MAX_MESSAGE_LENGTH - 100) ++ truncationSuffix
  else message_body

/-- The environment variables `send_whatsapp` reads (lines 150-154). -/
structure TwilioEnv where
  TWILIO_ACCOUNT_SID : Option String
  TWILIO_AUTH_TOKEN : Option String
  TWILIO_FROM_NUMBER : Option String
  TWILIO_TO_NUMBER : Option String
  deriving DecidableEq, Repr

/-- The outbound delivery attempt `send_whatsapp` hands to the messaging
SDK: the message body, the credential pair passed to `Client(...)`, and
the from/to identifiers passed to `messages.create`. -/
structure OutboundMessage where
  body : String
  accountSid : Option String
  authToken : Option String
  msgFrom : Option String
  msgTo : Option String
  deriving DecidableEq, Repr

/-- The notifier `send_whatsapp` (lines 130-159) up to the SDK boundary: assemble and
bound the body, then address the message.  The `account_sid`, `auth_token`,
`from_number` and `to_number` parameters are taken but never read — lines
150-154 pull all four values from the environment instead.  The current
time is passed in as the rendered `timestamp`. -/
def send_whatsapp (stocks_data : List MsgRecord)
    (account_sid auth_token from_number to_number : String)
    (api_calls : Nat) (env : TwilioEnv) (timestamp : String) :
    OutboundMessage :=
  { body := truncateBody (assembleBody stocks_data timestamp api_calls)
    accountSid := env.TWILIO_ACCOUNT_SID
    authToken := env.TWILIO_AUTH_TOKEN
    msgFrom := env.TWILIO_FROM_NUMBER
    msgTo := env.TWILIO_TO_NUMBER }

/-- A metadata table for concrete runs: every symbol resolves to a
small-cap company with none of the optional fields populated. -/
def infoSmallCap : Info :=
  { marketCap := some 50000000
    longName := none
    industry := none
    sector := none
    volume := none
    longBusinessSummary := none }

/-- A provider-B lookup that always answers with `infoSmallCap`. -/
def lookupSmallCap : String → Option Info := fun _ => some infoSmallCap

/-- The record the enricher builds from `lookupSmallCap` for a candidate
sitting exactly at its 52-week low of 10. -/
def abcRecord : EnrichedRecord :=
  { Symbol := "ABC"
    CompanyName := "N/A"
    CurrentPrice := 10
    YearLow52 := 10
    DistanceFromLow := 0
    MarketCap := 50000000
    Industry := "N/A"
    Sector := "N/A"
    Volume := 0
    Description := "N/A..." }

/-- Metadata with every optional field populated, for exercising the
non-default paths of the enricher. -/
def infoWithSummary : Info :=
  { marketCap := some 20000000
    longName := some "Example Corp"
    industry := some "Widgets"
    sector := some "Industrials"
    volume := some 1000
    longBusinessSummary := some "Makes widgets." }

/-- A provider-B lookup that always answers with `infoWithSummary`. -/
def lookupWithSummary : String → Option Info := fun _ => some infoWithSummary

/-- The record the enricher builds from `lookupWithSummary` for a candidate
at its 52-week low of 8. -/
def widRecord : EnrichedRecord :=
  { Symbol := "WID"
    CompanyName := "Example Corp"
    CurrentPrice := 8
    YearLow52 := 8
    DistanceFromLow := 0
    MarketCap := 20000000
    Industry := "Widgets"
    Sector := "Industrials"
    Volume := 1000
    Description := "Makes widgets...." }

/-- A record whose symbol alone already overflows the message bound. -/
def longMsgRecord : MsgRecord :=
  { symbol := String.mk (List.replicate 1600 'A')
    companyName := "Example Corp"
    currentPrice := "1.0"
    distanceFromLow := "1.0%"
    industry := "Widgets"
    marketCap := "$10.0M" }

/-- Unfolding lemma: an attempt that passes the counter check consults the
network once and either returns, raises on the last attempt, or recurses. -/
theorem makeApiCallAux_step {α : Type} (env : Nat → Attempt α)
    (retries i : Nat) (st : CallState) (h1 : i < retries)
    (h2 : st.api_calls + 1 ≤ max_daily_calls) :
    makeApiCallAux env retries i st =
      match env i with
      | .success v =>
          (Except.ok v, ⟨st.api_calls + 1, st.requests + 1⟩)
      | .transportError m =>
          if i = retries - 1 then
            (Except.error (.retriesExhausted retries m),
              ⟨st.api_calls + 1, st.requests + 1⟩)
          else
            makeApiCallAux env retries (i + 1)
              ⟨st.api_calls + 1, st.requests + 1⟩ := by
  rw [makeApiCallAux]
  simp only [h1, dif_pos]
  have h2' : ¬ st.api_calls + 1 > max_daily_calls := by omega
  simp only [h2', if_neg, ite_false]

/-- Unfolding lemma: an attempt whose counter increment passes the ceiling
raises the daily-limit exception without touching the network. -/
theorem makeApiCallAux_quota {α : Type} (env : Nat → Attempt α)
    (retries i : Nat) (st : CallState) (h1 : i < retries)
    (h2 : st.api_calls + 1 > max_daily_calls) :
    makeApiCallAux env retries i st =
      (Except.error .dailyLimit, ⟨st.api_calls + 1, st.requests⟩) := by
  rw [makeApiCallAux]
  simp only [h1, dif_pos]
  simp only [h2, if_pos, ite_true]

/-- The call counter never decreases across a run of the retry loop. -/
theorem makeApiCallAux_calls_mono {α : Type} (env : Nat → Attempt α)
    (retries : Nat) :
    ∀ (fuel i : Nat) (st : CallState), retries - i ≤ fuel →
      st.api_calls ≤ (makeApiCallAux env retries i st).2.api_calls := by
  intro fuel
  induction fuel with
  | zero =>
    intro i st hf
    rw [makeApiCallAux]
    have hi : ¬ i < retries := by omega
    simp [hi]
  | succ n ih =>
    intro i st hf
    rw [makeApiCallAux]
    by_cases hi : i < retries
    · simp only [hi, dif_pos]
      by_cases hq : st.api_calls + 1 > max_daily_calls
      · simp only [hq, if_pos, ite_true]
        exact Nat.le_succ _
      · simp only [hq, if_neg, ite_false]
        cases henv : env i with
        | success v => exact Nat.le_succ _
        | transportError m =>
          by_cases hlast : i = retries - 1
          · simp only [hlast, if_pos, ite_true]
            exact Nat.le_succ _
          · simp only [hlast, if_neg, ite_false]
            have := ih (i + 1) ⟨st.api_calls + 1, st.requests + 1⟩ (by omega)
            exact le_trans (Nat.le_succ _) this
    · simp [hi]

/-- Rounding half-to-even never climbs past an integer bound that the
argument respects. -/
theorem pyRoundInt_le_of_le (x : Rat) (n : Int) (h : x ≤ (n : Rat)) :
    pyRoundInt x ≤ n := by
  unfold pyRoundInt
  have hf : (⌊x⌋ : Rat) ≤ x := Int.floor_le x
  have hfn : ⌊x⌋ ≤ n := by
    have := Int.floor_le_floor h
    simpa using this
  by_cases h1 : x - ⌊x⌋ < 1 / 2
  · rw [if_pos h1]
    exact hfn
  · have hge : (1 : Rat) / 2 ≤ x - ⌊x⌋ := le_of_not_lt h1
    have hlt : ⌊x⌋ < n := by
      by_contra hc
      have : n ≤ ⌊x⌋ := le_of_not_lt hc
      have hxn : x ≤ (⌊x⌋ : Rat) := le_trans h (by exact_mod_cast this)
      have : x - ⌊x⌋ ≤ 0 := by linarith
      linarith
    have hsucc : ⌊x⌋ + 1 ≤ n := hlt
    rw [if_neg h1]
    by_cases h2 : x - ⌊x⌋ > 1 / 2
    · rw [if_pos h2]
      exact hsucc
    · rw [if_neg h2]
      by_cases h3 : ⌊x⌋ % 2 = 0
      · rw [if_pos h3]
        exact hfn
      · rw [if_neg h3]
        exact hsucc

/-- Rounding to two decimals never climbs past an integer bound that the
argument respects. -/
theorem pyRound2_le_of_le (x : Rat) (n : Int) (h : x ≤ (n : Rat)) :
    pyRound2 x ≤ (n : Rat) := by
  unfold pyRound2
  have h100 : x * 100 ≤ ((n * 100 : Int) : Rat) := by
    push_cast
    linarith
  have := pyRoundInt_le_of_le (x * 100) (n * 100) h100
  have hc : (pyRoundInt (x * 100) : Rat) ≤ ((n * 100 : Int) : Rat) := by
    exact_mod_cast this
  push_cast at hc
  linarith

/-- Inversion: a candidate the enricher keeps was looked up successfully,
sits in the market-cap band, has a nonzero year low, and its record's
fields are exactly the dict built on lines 100-111. -/
theorem enrichOne_fields (lookup : String → Option Info) (c : Candidate)
    (r : EnrichedRecord) (h : enrichOne lookup c = some r) :
    ∃ info, lookup c.symbol = some info ∧ c.yearLow ≠ 0 ∧
      10000000 ≤ info.marketCap.getD 0 ∧ info.marketCap.getD 0 ≤ 300000000 ∧
      r = { Symbol := c.symbol
            CompanyName := info.longName.getD "N/A"
            CurrentPrice := pyRound2 c.price
            YearLow52 := pyRound2 c.yearLow
            DistanceFromLow := pyRound2 ((c.price / c.yearLow - 1) * 100)
            MarketCap := info.marketCap.getD 0
            Industry := info.industry.getD "N/A"
            Sector := info.sector.getD "N/A"
            Volume := info.volume.getD 0
            Description :=
              (info.longBusinessSummary.getD "N/A").take 200 ++ "..." } := by
  unfold enrichOne at h
  cases hl : lookup c.symbol with
  | none => rw [hl] at h; exact absurd h (by simp)
  | some info =>
    rw [hl] at h
    simp only at h
    split at h
    · split at h
      · exact absurd h (by simp)
      · rename_i hband hz
        injection h with h'
        exact ⟨info, rfl, hz, hband.1, hband.2, h'.symm⟩
    · exact absurd h (by simp)

/-- Concrete evaluation of the enricher on a candidate sitting exactly at
its 52-week low, with default-only metadata. -/
theorem enrichOne_abc :
    enrichOne lookupSmallCap ⟨"ABC", 10, 10⟩ = some abcRecord := by
  simp only [enrichOne, lookupSmallCap, infoSmallCap, Option.getD, abcRecord]
  norm_num [pyRound2, pyRoundInt]
  rw [String.take_eq]
  decide

/-- Concrete evaluation of the enricher on a candidate whose metadata has
every optional field populated. -/
theorem enrichOne_wid :
    enrichOne lookupWithSummary ⟨"WID", 8, 8⟩ = some widRecord := by
  simp only [enrichOne, lookupWithSummary, infoWithSummary, Option.getD,
    widRecord]
  norm_num [pyRound2, pyRoundInt]
  rw [String.take_eq]
  decide

/-- C1 (counterexample): the claim that every quote with a non-positive
price or year low is excluded fails on the code.  The quote with price
`-1` and year low `10` has a non-positive price, yet `get_initial_stocks`
includes it as a Candidate: the truthiness guard only screens out zero,
and `-1 <= 10 * 1.02` holds. -/
theorem scanner_negative_price_included :
    (-1 : Rat) ≤ 0 ∧
      get_initial_stocks [⟨"NEG", some (.num (-1)), some (.num 10)⟩] =
        [⟨"NEG", -1, 10⟩] := by
  constructor
  · norm_num
  · simp [get_initial_stocks, List.filterMap_cons, quoteCandidate,
      Quote.getField, JValue.isTruthy]
    norm_num

/-- C1 (amended): for quotes whose price and year low are numeric and
positive, `get_initial_stocks` keeps the quote as a Candidate iff
`price <= yearLow * 1.02` (and drops it otherwise); quotes with a missing,
non-numeric, or zero price or year low are always dropped — but negative
values are not categorically excluded.  `get_initial_stocks` is exactly the
per-quote filter mapped over the snapshot. -/
theorem scanner_filter_amended :
    (∀ (q : Quote) (p l : Rat),
        Quote.getField q.price = .num p → Quote.getField q.yearLow = .num l →
        0 < p → 0 < l →
        (quoteCandidate q = some ⟨q.symbol, p, l⟩ ↔ p ≤ l * (51 / 50)) ∧
        (quoteCandidate q = none ↔ ¬ p ≤ l * (51 / 50))) ∧
    (∀ q : Quote,
        (Quote.getField q.price = .num 0 ∨ Quote.getField q.yearLow = .num 0 ∨
         (¬ ∃ p, Quote.getField q.price = .num p) ∨
         (¬ ∃ l, Quote.getField q.yearLow = .num l)) →
        quoteCandidate q = none) ∧
    (∀ quotes : List Quote,
        get_initial_stocks quotes = quotes.filterMap quoteCandidate) := by
  refine ⟨?_, ?_, fun _ => rfl⟩
  · intro q p l h1 h2 hp hl
    have hp' : p ≠ 0 := ne_of_gt hp
    have hl' : l ≠ 0 := ne_of_gt hl
    by_cases hc : p ≤ l * (51 / 50) <;>
      simp [quoteCandidate, h1, h2, JValue.isTruthy, hp', hl', hc]
  · intro q h
    rcases h with h | h | h | h
    · simp [quoteCandidate, h, JValue.isTruthy]
    · simp [quoteCandidate, h, JValue.isTruthy]
    · cases hv : Quote.getField q.price with
      | num p => exact absurd ⟨p, hv⟩ h
      | other b =>
        cases hw : Quote.getField q.yearLow <;>
          simp [quoteCandidate, hv, hw]
    · cases hw : Quote.getField q.yearLow with
      | num l => exact absurd ⟨l, hw⟩ h
      | other b =>
        cases hv : Quote.getField q.price <;>
          simp [quoteCandidate, hv, hw]

/-- C1 (witness): the amended filter theorem applied to a concrete quote
with price 9.9 and year low 10, which passes the 1.02 proximity filter. -/
theorem scanner_filter_amended_witness :
    quoteCandidate ⟨"OK", some (.num (99 / 10)), some (.num 10)⟩ =
      some ⟨"OK", 99 / 10, 10⟩ :=
  ((scanner_filter_amended.1 ⟨"OK", some (.num (99 / 10)), some (.num 10)⟩
      (99 / 10) 10 rfl rfl (by norm_num) (by norm_num)).1).mpr (by norm_num)

/-- C2 (counterexample): the claim that `Distance from Low` is always
non-negative fails on the code.  The candidate with price 9.9 and year low
10 passes the filter (9.9 <= 10.2) and is enriched, but its distance is
`round((9.9/10 - 1) * 100, 2) = -1`, which is negative. -/
theorem distance_from_low_negative :
    (enrich_stock_data lookupSmallCap [⟨"ABC", 99 / 10, 10⟩]).map
        (fun r => r.DistanceFromLow) = [-1] ∧ ((-1 : Rat) < 0) := by
  constructor
  · simp only [enrich_stock_data, List.filterMap_cons, List.filterMap_nil,
      enrichOne, lookupSmallCap, infoSmallCap, Option.getD]
    norm_num [pyRound2, pyRoundInt]
  · norm_num

/-- C2 (amended): every record the enricher produces carries
`Distance from Low = round((price/yearLow - 1) * 100, 2)`; for candidates
with positive price and year low that passed the `price <= yearLow * 1.02`
filter the value is at most 2 (not necessarily non-negative). -/
theorem distance_from_low_amended (lookup : String → Option Info)
    (c : Candidate) (r : EnrichedRecord) (h : enrichOne lookup c = some r) :
    r.DistanceFromLow = pyRound2 ((c.price / c.yearLow - 1) * 100) ∧
    (0 < c.price → 0 < c.yearLow → c.price ≤ c.yearLow * (51 / 50) →
      r.DistanceFromLow ≤ 2) := by
  obtain ⟨info, -, -, -, -, hr⟩ := enrichOne_fields lookup c r h
  subst hr
  refine ⟨rfl, ?_⟩
  intro hp hl hfilter
  have hratio : c.price / c.yearLow ≤ 51 / 50 := by
    rw [div_le_iff₀ hl]
    linarith
  have harg : (c.price / c.yearLow - 1) * 100 ≤ ((2 : Int) : Rat) := by
    push_cast
    linarith
  simpa using pyRound2_le_of_le _ 2 harg

/-- C2 (witness): the amended theorem applied to a candidate sitting
exactly at its 52-week low, whose distance is 0. -/
theorem distance_from_low_amended_witness :
    abcRecord.DistanceFromLow =
      pyRound2 (((10 : Rat) / 10 - 1) * 100) ∧ abcRecord.DistanceFromLow ≤ 2 :=
  ⟨(distance_from_low_amended lookupSmallCap ⟨"ABC", 10, 10⟩ abcRecord
      enrichOne_abc).1,
   (distance_from_low_amended lookupSmallCap ⟨"ABC", 10, 10⟩ abcRecord
      enrichOne_abc).2 (by norm_num) (by norm_num) (by norm_num)⟩

/-- C3: once the call counter exceeds the 250 ceiling, any invocation of
the bounded caller raises the daily-limit exception on its first
iteration: the counter is bumped once, no network request is issued
(`requests` is unchanged) and there is no retry. -/
theorem api_caller_quota_abort {α : Type} (env : Nat → Attempt α)
    (st : CallState) (retries : Nat) (hr : 0 < retries)
    (h : st.api_calls > max_daily_calls) :
    _make_api_call env st retries =
      (Except.error .dailyLimit, ⟨st.api_calls + 1, st.requests⟩) := by
  unfold _make_api_call
  exact makeApiCallAux_quota env retries 0 st hr (by omega)

/-- C3 (witness): a caller invoked with the counter at 251 fails at once,
leaving the request count untouched. -/
theorem api_caller_quota_abort_witness :
    _make_api_call (fun _ => (Attempt.success 0 : Attempt Nat)) ⟨251, 7⟩ =
      (Except.error .dailyLimit, ⟨252, 7⟩) :=
  api_caller_quota_abort (fun _ => (Attempt.success 0 : Attempt Nat))
    ⟨251, 7⟩ 3 (by norm_num) (by norm_num [max_daily_calls])

/-- C4: whenever the assembled body exceeds 1600 characters, the sent
message is exactly the body's first 1500 characters followed by the fixed
truncation notice, and its total length stays within 1600; bodies of at
most 1600 characters pass through unchanged. -/
theorem notifier_truncation (stocks_data : List MsgRecord)
    (timestamp : String) (api_calls : Nat) :
    ((assembleBody stocks_data timestamp api_calls).length >
        MAX_MESSAGE_LENGTH →
      truncateBody (assembleBody stocks_data timestamp api_calls) =
        (assembleBody stocks_data timestamp api_calls).take
            (MAX_MESSAGE_LENGTH - 100) ++ truncationSuffix ∧
      (truncateBody (assembleBody stocks_data timestamp api_calls)).length ≤
        MAX_MESSAGE_LENGTH) ∧
    ((assembleBody stocks_data timestamp api_calls).length ≤
        MAX_MESSAGE_LENGTH →
      truncateBody (assembleBody stocks_data timestamp api_calls) =
        assembleBody stocks_data timestamp api_calls) := by
  set b := assembleBody stocks_data timestamp api_calls with hb
  constructor
  · intro h
    have ht : truncateBody b = b.take (MAX_MESSAGE_LENGTH - 100) ++
        truncationSuffix := by
      unfold truncateBody
      rw [if_pos h]
    refine ⟨ht, ?_⟩
    rw [ht, String.length_append]
    have h1 : (b.take (MAX_MESSAGE_LENGTH - 100)).length = 1500 := by
      rw [String.take_eq, String.length_mk, List.length_take]
      have : b.length = b.data.length := rfl
      simp only [MAX_MESSAGE_LENGTH] at h ⊢
      omega
    have h2 : truncationSuffix.length = 35 := by decide
    rw [h1, h2]
    norm_num [MAX_MESSAGE_LENGTH]
  · intro h
    unfold truncateBody
    rw [if_neg (by omega)]

set_option maxRecDepth 100000 in
/-- C4 (witness): the truncation theorem applied to a record list whose
assembled body overflows the bound. -/
theorem notifier_truncation_witness :
    truncateBody (assembleBody [longMsgRecord] "2025-01-01 00:00:00" 5) =
      (assembleBody [longMsgRecord] "2025-01-01 00:00:00" 5).take
          (MAX_MESSAGE_LENGTH - 100) ++ truncationSuffix ∧
    (truncateBody
        (assembleBody [longMsgRecord] "2025-01-01 00:00:00" 5)).length ≤
      MAX_MESSAGE_LENGTH :=
  (notifier_truncation [longMsgRecord] "2025-01-01 00:00:00" 5).1 (by decide)

/-- C5: the bounded caller retries transport failures up to its 3
attempts.  If the first two attempts fail at transport level and the third
succeeds, it returns the parsed result with the counter incremented
exactly 3 times; if all 3 fail, it raises the exhausted-retries error,
whose message wraps the last transport error's message.  (The quota
ceiling is assumed not to intervene.) -/
theorem api_caller_retry_behavior :
    (∀ (α : Type) (env : Nat → Attempt α) (st : CallState)
        (m0 m1 : String) (v : α),
        env 0 = .transportError m0 → env 1 = .transportError m1 →
        env 2 = .success v → st.api_calls + 3 ≤ max_daily_calls →
        _make_api_call env st =
          (Except.ok v, ⟨st.api_calls + 3, st.requests + 3⟩)) ∧
    (∀ (α : Type) (env : Nat → Attempt α) (st : CallState)
        (m0 m1 m2 : String),
        env 0 = .transportError m0 → env 1 = .transportError m1 →
        env 2 = .transportError m2 → st.api_calls + 3 ≤ max_daily_calls →
        _make_api_call env st =
          (Except.error (.retriesExhausted 3 m2),
            ⟨st.api_calls + 3, st.requests + 3⟩) ∧
        (ApiError.retriesExhausted 3 m2).message =
          "API call failed after 3 retries: " ++ m2) := by
  constructor
  · intro α env st m0 m1 v h0 h1 h2 hq
    unfold _make_api_call
    rw [makeApiCallAux_step env 3 0 st (by norm_num) (by omega), h0]
    simp only [show (0 : Nat) ≠ 3 - 1 by norm_num, if_neg, ite_false]
    rw [makeApiCallAux_step env 3 1 _ (by norm_num) (by simp only []; omega), h1]
    simp only [show (1 : Nat) ≠ 3 - 1 by norm_num, if_neg, ite_false]
    rw [makeApiCallAux_step env 3 2 _ (by norm_num) (by simp only []; omega), h2]
  · intro α env st m0 m1 m2 h0 h1 h2 hq
    refine ⟨?_, rfl⟩
    unfold _make_api_call
    rw [makeApiCallAux_step env 3 0 st (by norm_num) (by omega), h0]
    simp only [show (0 : Nat) ≠ 3 - 1 by norm_num, if_neg, ite_false]
    rw [makeApiCallAux_step env 3 1 _ (by norm_num) (by simp only []; omega), h1]
    simp only [show (1 : Nat) ≠ 3 - 1 by norm_num, if_neg, ite_false]
    rw [makeApiCallAux_step env 3 2 _ (by norm_num) (by simp only []; omega), h2]
    simp only [show (2 : Nat) = 3 - 1 by norm_num, if_pos, ite_true]

/-- C5 (witness): a network that fails twice and then serves 42 yields 42
after exactly 3 increments of the counter. -/
theorem api_caller_retry_behavior_witness :
    _make_api_call
        (fun i => if i < 2 then Attempt.transportError ("e" ++ toString i)
                  else Attempt.success 42) ⟨10, 4⟩ =
      (Except.ok 42, ⟨13, 7⟩) :=
  api_caller_retry_behavior.1 Nat
    (fun i => if i < 2 then Attempt.transportError ("e" ++ toString i)
              else Attempt.success 42)
    ⟨10, 4⟩ "e0" "e1" 42 rfl rfl rfl (by norm_num [max_daily_calls])

/-- C6: a candidate (with the nonzero year low every filtered candidate
has) is turned into an enriched record iff its metadata lookup succeeds
and the market cap — defaulting to 0 when missing, hence skipping
missing-cap candidates — lies in the inclusive band
[10,000,000, 300,000,000]. -/
theorem enrich_market_cap_band (lookup : String → Option Info)
    (c : Candidate) (hz : c.yearLow ≠ 0) :
    (∃ r, enrichOne lookup c = some r) ↔
      ∃ info, lookup c.symbol = some info ∧
        10000000 ≤ info.marketCap.getD 0 ∧
        info.marketCap.getD 0 ≤ 300000000 := by
  constructor
  · rintro ⟨r, hr⟩
    obtain ⟨info, hl, -, hlo, hhi, -⟩ := enrichOne_fields lookup c r hr
    exact ⟨info, hl, hlo, hhi⟩
  · rintro ⟨info, hl, hlo, hhi⟩
    refine ⟨{ Symbol := c.symbol
              CompanyName := info.longName.getD "N/A"
              CurrentPrice := pyRound2 c.price
              YearLow52 := pyRound2 c.yearLow
              DistanceFromLow := pyRound2 ((c.price / c.yearLow - 1) * 100)
              MarketCap := info.marketCap.getD 0
              Industry := info.industry.getD "N/A"
              Sector := info.sector.getD "N/A"
              Volume := info.volume.getD 0
              Description :=
                (info.longBusinessSummary.getD "N/A").take 200 ++ "..." },
      ?_⟩
    simp only [enrichOne, hl]
    rw [if_pos ⟨hlo, hhi⟩, if_neg hz]

/-- C6 (witness): the band characterisation applied to a concrete
candidate against the small-cap metadata table. -/
theorem enrich_market_cap_band_witness :
    (∃ r, enrichOne lookupSmallCap ⟨"XYZ", 5, 4⟩ = some r) ↔
      ∃ info, lookupSmallCap "XYZ" = some info ∧
        10000000 ≤ info.marketCap.getD 0 ∧
        info.marketCap.getD 0 ≤ 300000000 :=
  enrich_market_cap_band lookupSmallCap ⟨"XYZ", 5, 4⟩ (by norm_num)

/-- C7 (counterexample): the claim that an absent business summary gives
Description exactly "N/A" fails on the code: line 110 appends the ellipsis
unconditionally, so the enriched record for a symbol without a summary
carries Description "N/A..." (which differs from "N/A"). -/
theorem description_when_summary_absent :
    (enrichOne lookupSmallCap ⟨"ABC", 10, 10⟩).map
        (fun r => r.Description) = some "N/A..." ∧
      ("N/A..." : String) ≠ "N/A" := by
  refine ⟨?_, by decide⟩
  rw [enrichOne_abc]
  rfl

/-- C7 (amended): every enriched record's Description is the first 200
characters of the long business summary with "..." appended; when the
summary is absent the Description is exactly "N/A..." (the "N/A" default
also receives the ellipsis). -/
theorem description_amended (lookup : String → Option Info) (c : Candidate)
    (info : Info) (r : EnrichedRecord) (hl : lookup c.symbol = some info)
    (h : enrichOne lookup c = some r) :
    (∀ s, info.longBusinessSummary = some s →
        r.Description = s.take 200 ++ "...") ∧
    (info.longBusinessSummary = none → r.Description = "N/A...") := by
  obtain ⟨info', hl', -, -, -, hr⟩ := enrichOne_fields lookup c r h
  rw [hl] at hl'
  injection hl' with hi
  subst hi
  subst hr
  constructor
  · intro s hs
    simp [hs]
  · intro hs
    rw [hs]
    show ("N/A" : String).take 200 ++ "..." = "N/A..."
    rw [String.take_eq]
    decide

/-- C7 (witness): the amended description theorem applied to a symbol
whose metadata does carry a summary. -/
theorem description_amended_witness :
    widRecord.Description = ("Makes widgets." : String).take 200 ++ "..." :=
  (description_amended lookupWithSummary ⟨"WID", 8, 8⟩ infoWithSummary
      widRecord rfl enrichOne_wid).1 "Makes widgets." rfl

/-- C8: run-wide invariants.  Every record the enricher produces carries
the symbol of some candidate from its input list; the call counter never
decreases across an invocation of the bounded caller; and a call attempt
that would push the counter past the 250 ceiling raises the daily-limit
error. -/
theorem run_invariants :
    (∀ (lookup : String → Option Info) (stocks : List Candidate)
        (r : EnrichedRecord), r ∈ enrich_stock_data lookup stocks →
        ∃ c ∈ stocks, r.Symbol = c.symbol) ∧
    (∀ (α : Type) (env : Nat → Attempt α) (retries : Nat) (st : CallState),
        st.api_calls ≤ (_make_api_call env st retries).2.api_calls) ∧
    (∀ (α : Type) (env : Nat → Attempt α) (retries : Nat) (st : CallState),
        0 < retries → max_daily_calls ≤ st.api_calls →
        (_make_api_call env st retries).1 = Except.error .dailyLimit) := by
  refine ⟨?_, ?_, ?_⟩
  · intro lookup stocks r hr
    rw [enrich_stock_data, List.mem_filterMap] at hr
    obtain ⟨c, hc, he⟩ := hr
    obtain ⟨info, -, -, -, -, hfields⟩ := enrichOne_fields lookup c r he
    exact ⟨c, hc, by rw [hfields]⟩
  · intro α env retries st
    exact makeApiCallAux_calls_mono env retries (retries - 0) 0 st le_rfl
  · intro α env retries st hret hcalls
    unfold _make_api_call
    rw [makeApiCallAux_quota env retries 0 st hret (by omega)]

/-- C8 (witness): the invariants applied to a concrete enrichment run and
to a caller starting with the counter exactly at the ceiling. -/
theorem run_invariants_witness :
    (∃ c ∈ [(⟨"ABC", 10, 10⟩ : Candidate)], abcRecord.Symbol = c.symbol) ∧
    (_make_api_call (fun _ => (Attempt.success 0 : Attempt Nat))
        ⟨250, 0⟩).1 = Except.error .dailyLimit :=
  ⟨run_invariants.1 lookupSmallCap [⟨"ABC", 10, 10⟩] abcRecord
      (by rw [enrich_stock_data, List.filterMap_cons, enrichOne_abc]
          exact List.mem_cons_self _ _),
   run_invariants.2.2 Nat (fun _ => Attempt.success 0) 3 ⟨250, 0⟩
      (by norm_num) (by norm_num [max_daily_calls])⟩

/-- C9: the quota gate answers `true` exactly when the response carries a
numeric `remainingCalls` field exceeding the safety margin of 5; every
transport failure, parse failure, missing field, or non-numeric field
yields `false` (fail closed), and the gate is a total function, so no
exception reaches its caller. -/
theorem quota_gate_fail_closed (resp : QuotaResponse) :
    check_api_quota resp = true ↔
      ∃ r : Rat, resp = .ok (some (.num r)) ∧ 5 < r := by
  cases resp with
  | fail m => simp [check_api_quota]
  | ok o =>
    cases o with
    | none => simp [check_api_quota]
    | some v =>
      cases v with
      | num r => simp [check_api_quota]
      | other b => simp [check_api_quota]

/-- C10: the notifier's outcome — body built and delivery identifiers
used — is independent of its `account_sid`, `auth_token`, `from_number`
and `to_number` parameters: two calls differing only in those four
arguments produce identical outbound messages, because the credentials
and addresses are read from the environment instead. -/
theorem notifier_ignores_credential_params (stocks_data : List MsgRecord)
    (a1 t1 f1 n1 a2 t2 f2 n2 : String) (api_calls : Nat) (env : TwilioEnv)
    (timestamp : String) :
    send_whatsapp stocks_data a1 t1 f1 n1 api_calls env timestamp =
      send_whatsapp stocks_data a2 t2 f2 n2 api_calls env timestamp := rfl
